import Mathlib

/-!
Verification of the use-safe-context repository (src/index.ts).

The single export, useSafeContext, reads a context value through the
underlying primitive (the suspension-capable one when available, else the
legacy subscription-based one, selected once at module load as
useHook = use ?? useContext).  When the value is the sentinel undefined,
it parses the stack string of a freshly constructed Error to build the
message of the thrown error:

  const errorLine = new Error().stack!.split("at ")[2];
  const hookName = errorLine.split(" ")[0];
  const splitBySlash = errorLine.split("/");
  const contextProviderName = splitBySlash[splitBySlash.length - 1]!.split(".")[0];
  throw new Error(hookName + " must be used within " + contextProviderName);

Modelling choices:
  - JS strings are lists of characters (Str).
  - JS String.split with a non-empty string separator is jsSplit
    (left-to-right scan, non-overlapping occurrences removed).  The code
    never calls split with an empty separator, so the empty-separator
    behaviour of jsSplit is irrelevant.
  - JS array indexing that can yield undefined is Option valued; the
    subsequent method call on undefined is the runtime TypeError.
  - A thrown error is either the ContextMissingError the source builds
    (JsError.contextMissing) or the TypeError the runtime raises when the
    source dereferences undefined (JsError.typeError).
  - A V8-style stack string for a captured snapshot with frame
    descriptors f0, f1, ... is rendered by renderStack as
    "Error" ++ "\n    at " ++ f0 ++ "\n    at " ++ f1 ++ ...
-/

/-- JS strings, modelled as lists of characters. -/
abbrev Str : Type := List Char

/-- Fuel-indexed splitter realising JS String.split for a non-empty
separator: scan left to right, cut at each non-overlapping occurrence of
the separator.  The fuel only drives structural recursion; it is set to
the string length by jsSplit, which is enough because every step consumes
at least one character. -/
def jsSplitFuel (sep : Str) : Nat → Str → List Str
  | 0, s => [s]
  | fuel + 1, s =>
    match s with
    | [] => [[]]
    | c :: rest =>
      if sep ≠ [] ∧ sep.isPrefixOf (c :: rest) then
        [] :: jsSplitFuel sep fuel ((c :: rest).drop sep.length)
      else
        match jsSplitFuel sep fuel rest with
        | [] => [[c]]
        | h :: t => (c :: h) :: t

/-- JS String.split for a non-empty separator. -/
def jsSplit (sep s : Str) : List Str := jsSplitFuel sep s.length s

/-- The separator string of line 47 of the source: split("at "). -/
def atSep : Str := "at ".data

/-- Line 47 of the source: new Error().stack!.split("at ")[2].  The [2]
indexing yields undefined (none) when fewer than three segments exist. -/
def errorLineOf (stack : Str) : Option Str := (jsSplit atSep stack).get? 2

/-- Line 48 of the source: errorLine.split(" ")[0].  A JS split result is
never empty, so the [0] access is total. -/
def hookName (errorLine : Str) : Str := (jsSplit " ".data errorLine).headD []

/-- Lines 49-50 of the source:
splitBySlash = errorLine.split("/");
contextProviderName = splitBySlash[splitBySlash.length - 1]!.split(".")[0]. -/
def contextProviderName (errorLine : Str) : Str :=
  (jsSplit ".".data ((jsSplit "/".data errorLine).getLastD [])).headD []

/-- Line 51 of the source: the template literal of the thrown message. -/
def contextErrorMessage (errorLine : Str) : Str :=
  hookName errorLine ++ " must be used within ".data ++ contextProviderName errorLine

/-- The two errors a call can raise: the ContextMissingError built by the
source, and the TypeError the JS runtime raises when the source
dereferences undefined (absent stack, or a split result with no index 2). -/
inductive JsError : Type where
  | contextMissing (message : Str)
  | typeError (message : Str)
deriving DecidableEq

/-- The V8 TypeError text for a method call on undefined. -/
def typeErrorMessage : Str := "Cannot read properties of undefined".data

/-- Lines 43-55 of the source, with the value already read from the
underlying primitive.  The stack is Option valued because the runtime may
expose no stack string; in that case, and when the split has no index 2,
the source dereferences undefined and the runtime raises a TypeError. -/
def useSafeContextCore {α : Type} (stack : Option Str) (contextVal : Option α) :
    Except JsError α :=
  match contextVal with
  | some v => Except.ok v
  | none =>
    match stack with
    | none => Except.error (JsError.typeError typeErrorMessage)
    | some st =>
      match errorLineOf st with
      | none => Except.error (JsError.typeError typeErrorMessage)
      | some errorLine => Except.error (JsError.contextMissing (contextErrorMessage errorLine))

/-- Line 5 of the source: const useHook = use ?? useContext.  The
suspension-capable primitive is Option valued (the import may be absent);
the nullish-coalescing selection happens once, at module load. -/
def useHook {κ α : Type} (use : Option (κ → Option α)) (useContext : κ → Option α) :
    κ → Option α :=
  use.getD useContext

/-- The full hook: read through the chosen primitive, then run the body. -/
def useSafeContext {κ α : Type} (readPrim : κ → Option α) (stack : Option Str)
    (ctx : κ) : Except JsError α :=
  useSafeContextCore stack (readPrim ctx)

/-- The padding V8 places before each frame line: newline and four spaces. -/
def pad : Str := "\n    ".data

/-- V8-style rendering of a captured stack snapshot: the "Error" header
followed by one "\n    at " ++ descriptor line per frame. -/
def renderStack (frames : List Str) : Str :=
  "Error".data ++ frames.foldr (fun f acc => pad ++ atSep ++ f ++ acc) []

/-- No occurrence of sep starts inside a (also not an occurrence running
past the end of a into an adjacent copy of sep).  This is the condition
under which the splitter passes over a without cutting. -/
def noEarly (sep a : Str) : Bool :=
  (List.range a.length).all fun i => !(sep.isPrefixOf (a.drop i ++ sep))

/-- A frame descriptor is well formed for the split on "at " when no
occurrence of "at " starts inside the descriptor followed by its line
padding.  Descriptors of the documented shape (a function name, a space,
a parenthesised source location without embedded "at ") satisfy this. -/
def frameOk (f : Str) : Bool := noEarly atSep (f ++ pad)

/-- Modelled from the spec: the source-location portion of a frame
descriptor, the part between the parentheses. -/
def specSourceLocation (desc : Str) : Str :=
  ((desc.dropWhile (fun c => c ≠ '(')).drop 1).takeWhile (fun c => c ≠ ')')

/-- Modelled from the spec, claim C3 recipe: derive the provider name
from a frame descriptor by taking its source-location portion, splitting
on path separators, taking the last segment, and stripping everything
from the first dot onward. -/
def specProviderNameFromFrame (desc : Str) : Str :=
  (jsSplit ".".data ((jsSplit "/".data (specSourceLocation desc)).getLastD [])).headD []

/-- Equality of call outcomes is decidable, so concrete runs can be
checked by evaluation. -/
instance instDecEqExcept {ε α : Type} [DecidableEq ε] [DecidableEq α] :
    DecidableEq (Except ε α)
  | Except.ok a, Except.ok b =>
    if h : a = b then isTrue (by rw [h]) else isFalse (fun he => h (by injection he))
  | Except.ok _, Except.error _ => isFalse (fun he => Except.noConfusion he)
  | Except.error _, Except.ok _ => isFalse (fun he => Except.noConfusion he)
  | Except.error e, Except.error f =>
    if h : e = f then isTrue (by rw [h]) else isFalse (fun he => h (by injection he))

/-- Observation helper: the call ended in the runtime TypeError. -/
def isTypeError {α : Type} : Except JsError α → Bool
  | Except.error (JsError.typeError _) => true
  | _ => false

/-- Observation helper: the call ended in the ContextMissingError. -/
def isContextMissingError {α : Type} : Except JsError α → Bool
  | Except.error (JsError.contextMissing _) => true
  | _ => false

theorem jsSplitFuel_congr (sep : Str) :
    ∀ f₁ f₂ s, s.length ≤ f₁ → s.length ≤ f₂ →
      jsSplitFuel sep f₁ s = jsSplitFuel sep f₂ s := by
  intro f₁
  induction f₁ with
  | zero =>
    intro f₂ s h₁ h₂
    have hs : s = [] := List.eq_nil_of_length_eq_zero (Nat.le_zero.mp h₁)
    subst hs
    cases f₂ <;> rfl
  | succ f ih =>
    intro f₂ s h₁ h₂
    cases s with
    | nil => cases f₂ <;> rfl
    | cons c rest =>
      cases f₂ with
      | zero => simp at h₂
      | succ g =>
        simp only [jsSplitFuel]
        by_cases hcond : sep ≠ [] ∧ sep.isPrefixOf (c :: rest)
        · rw [if_pos hcond, if_pos hcond]
          have hsep1 : 1 ≤ sep.length := by
            cases hsep : sep with
            | nil => exact absurd hsep hcond.1
            | cons x xs => simp
          have hd : ((c :: rest).drop sep.length).length ≤ f := by
            simp only [List.length_drop, List.length_cons]
            simp only [List.length_cons] at h₁
            omega
          have hd2 : ((c :: rest).drop sep.length).length ≤ g := by
            simp only [List.length_drop, List.length_cons]
            simp only [List.length_cons] at h₂
            omega
          rw [ih g ((c :: rest).drop sep.length) hd hd2]
        · rw [if_neg hcond, if_neg hcond]
          have hr : rest.length ≤ f := by
            simp only [List.length_cons] at h₁
            omega
          have hr2 : rest.length ≤ g := by
            simp only [List.length_cons] at h₂
            omega
          rw [ih g rest hr hr2]

theorem jsSplitFuel_ne_nil (sep : Str) : ∀ f s, jsSplitFuel sep f s ≠ [] := by
  intro f
  induction f with
  | zero => intro s; simp [jsSplitFuel]
  | succ f ih =>
    intro s
    cases s with
    | nil => simp [jsSplitFuel]
    | cons c rest =>
      simp only [jsSplitFuel]
      by_cases hcond : sep ≠ [] ∧ sep.isPrefixOf (c :: rest)
      · rw [if_pos hcond]; simp
      · rw [if_neg hcond]
        cases hr : jsSplitFuel sep f rest with
        | nil => simp
        | cons h t => simp

theorem jsSplit_ne_nil (sep s : Str) : jsSplit sep s ≠ [] :=
  jsSplitFuel_ne_nil sep s.length s

theorem isPrefixOf_append_self : ∀ (l t : Str), l.isPrefixOf (l ++ t) = true := by
  intro l
  induction l with
  | nil => intro t; simp [List.isPrefixOf]
  | cons a as ih => intro t; simp [List.isPrefixOf, ih]

theorem isPrefixOf_append_left :
    ∀ (sep x b : Str), sep.length ≤ x.length →
      sep.isPrefixOf (x ++ b) = sep.isPrefixOf x := by
  intro sep
  induction sep with
  | nil => intro x b h; simp [List.isPrefixOf]
  | cons a as ih =>
    intro x b h
    cases x with
    | nil => simp at h
    | cons x₀ x' =>
      simp only [List.cons_append, List.isPrefixOf, List.append_eq]
      rw [ih x' b (by simpa using h)]

theorem jsSplit_sep_append (sep b : Str) (hsep : sep ≠ []) :
    jsSplit sep (sep ++ b) = [] :: jsSplit sep b := by
  cases sep with
  | nil => exact absurd rfl hsep
  | cons s₀ sep' =>
    show jsSplitFuel (s₀ :: sep') ((s₀ :: sep' ++ b).length) (s₀ :: sep' ++ b) = _
    simp only [List.cons_append, List.length_cons, jsSplitFuel]
    rw [if_pos ⟨by simp, by exact isPrefixOf_append_self (s₀ :: sep') b⟩]
    have hdrop : List.drop (sep'.length + 1) (s₀ :: (sep' ++ b)) = b := by
      rw [List.drop_succ_cons]
      exact List.drop_left sep' b
    rw [hdrop]
    simp only [List.append_eq]
    have : jsSplitFuel (s₀ :: sep') (sep' ++ b).length b = jsSplit (s₀ :: sep') b := by
      apply jsSplitFuel_congr
      · simp
      · exact Nat.le_refl _
    rw [this]

theorem jsSplit_cons_skip (sep : Str) (c : Char) (s : Str)
    (hc : sep.isPrefixOf (c :: s) = false) :
    jsSplit sep (c :: s) = (c :: (jsSplit sep s).headD []) :: (jsSplit sep s).tail := by
  show jsSplitFuel sep (s.length + 1) (c :: s) = _
  simp only [jsSplitFuel]
  rw [if_neg (fun h => by simp [hc] at h)]
  cases hr : jsSplitFuel sep s.length s with
  | nil => exact absurd hr (jsSplitFuel_ne_nil sep s.length s)
  | cons h t =>
    have : jsSplit sep s = h :: t := hr
    simp [this]

theorem noEarly_iff (sep a : Str) :
    noEarly sep a = true ↔ ∀ i, i < a.length → sep.isPrefixOf (a.drop i ++ sep) = false := by
  unfold noEarly
  rw [List.all_eq_true]
  constructor
  · intro h i hi
    have hh := h i (List.mem_range.mpr hi)
    simpa using hh
  · intro h i hi
    have hh := h i (List.mem_range.mp hi)
    simpa using hh

theorem noEarly_cons (sep : Str) (c : Char) (a : Str) (h : noEarly sep (c :: a) = true) :
    sep.isPrefixOf ((c :: a) ++ sep) = false ∧ noEarly sep a = true := by
  rw [noEarly_iff] at h
  constructor
  · have h0 := h 0 (by simp)
    simpa using h0
  · rw [noEarly_iff]
    intro i hi
    have hi1 := h (i + 1) (by simp; omega)
    simpa using hi1

theorem noEarly_single (c : Char) (a : Str) (h : c ∉ a) : noEarly [c] a = true := by
  rw [noEarly_iff]
  intro i hi
  cases hd : a.drop i with
  | nil =>
    have := List.drop_eq_nil_iff.mp hd
    omega
  | cons d₀ d' =>
    have hmem : d₀ ∈ a := by
      have hdm : d₀ ∈ a.drop i := by rw [hd]; exact List.mem_cons_self d₀ d'
      exact List.drop_subset i a hdm
    have hne : c ≠ d₀ := fun he => h (he ▸ hmem)
    simp [List.isPrefixOf, hne]

theorem jsSplit_append (sep b : Str) (hsep : sep ≠ []) :
    ∀ (a : Str), noEarly sep a = true →
      jsSplit sep (a ++ (sep ++ b)) = a :: jsSplit sep b := by
  intro a
  induction a with
  | nil =>
    intro _
    simpa using jsSplit_sep_append sep b hsep
  | cons c a' ih =>
    intro h
    obtain ⟨h0, h'⟩ := noEarly_cons sep c a' h
    have hlen : sep.length ≤ ((c :: a') ++ sep).length := by simp; omega
    have hnp : sep.isPrefixOf (((c :: a') ++ sep) ++ b) = false := by
      rw [isPrefixOf_append_left sep ((c :: a') ++ sep) b hlen]
      exact h0
    rw [List.append_assoc] at hnp
    have hstep := jsSplit_cons_skip sep c (a' ++ (sep ++ b)) (by simpa using hnp)
    have hgoal : (c :: a') ++ (sep ++ b) = c :: (a' ++ (sep ++ b)) := by simp
    rw [hgoal, hstep, ih h']
    simp

theorem jsSplit_no_sep (c : Char) (s : Str) (h : c ∉ s) : jsSplit [c] s = [s] := by
  induction s with
  | nil => rfl
  | cons x s' ih =>
    have hx : c ≠ x := fun he => h (by simp [he])
    have hs' : c ∉ s' := fun hm => h (by simp [hm])
    have hnp : [c].isPrefixOf (x :: s') = false := by
      simp [List.isPrefixOf, hx]
    rw [jsSplit_cons_skip [c] x s' hnp, ih hs']
    rfl

theorem jsSplit_last_seg (c : Char) (b : Str) (hb : c ∉ b) :
    ∀ (a : Str), ∃ l, jsSplit [c] (a ++ c :: b) = l ++ [b] ∧ l ≠ [] := by
  intro a
  induction a with
  | nil =>
    refine ⟨[[]], ?_, by simp⟩
    have h1 : jsSplit [c] ([c] ++ b) = [] :: jsSplit [c] b := jsSplit_sep_append [c] b (by simp)
    simpa [jsSplit_no_sep c b hb] using h1
  | cons x a' ih =>
    obtain ⟨l', hl', hne⟩ := ih
    by_cases hx : x = c
    · subst hx
      have h1 : jsSplit [x] ([x] ++ (a' ++ x :: b)) = [] :: jsSplit [x] (a' ++ x :: b) :=
        jsSplit_sep_append [x] (a' ++ x :: b) (by simp)
      refine ⟨[] :: l', ?_, by simp⟩
      have hre : (x :: a') ++ x :: b = [x] ++ (a' ++ x :: b) := by simp
      rw [hre, h1, hl']
      simp
    · have hnp : [c].isPrefixOf (x :: (a' ++ c :: b)) = false := by
        have hcx : c ≠ x := fun he => hx he.symm
        simp [List.isPrefixOf, hcx]
      cases l' with
      | nil => exact absurd rfl hne
      | cons h₀ t₀ =>
        refine ⟨(x :: h₀) :: t₀, ?_, by simp⟩
        have hre : (x :: a') ++ c :: b = x :: (a' ++ c :: b) := by simp
        rw [hre, jsSplit_cons_skip [c] x (a' ++ c :: b) hnp, hl']
        simp

theorem getLastD_append_single {α : Type} (l : List α) (b : α) :
    ∀ (d : α), (l ++ [b]).getLastD d = b := by
  induction l with
  | nil => intro d; rfl
  | cons x l' ih =>
    intro d
    rw [List.cons_append, List.getLastD_cons]
    exact ih x

theorem atSep_ne_nil : atSep ≠ [] := by decide

theorem jsSplit_renderStack (f0 f1 f2 : Str) (h0 : frameOk f0 = true)
    (h1 : frameOk f1 = true) :
    jsSplit atSep (renderStack [f0, f1, f2]) =
      ("Error".data ++ pad) :: (f0 ++ pad) :: (f1 ++ pad) :: jsSplit atSep f2 := by
  have hstack : renderStack [f0, f1, f2] =
      ("Error".data ++ pad) ++ (atSep ++ ((f0 ++ pad) ++ (atSep ++ ((f1 ++ pad) ++ (atSep ++ f2))))) := by
    simp [renderStack, List.append_assoc]
  have hhdr : noEarly atSep ("Error".data ++ pad) = true := by decide
  rw [hstack]
  rw [jsSplit_append atSep _ atSep_ne_nil _ hhdr]
  rw [jsSplit_append atSep _ atSep_ne_nil _ h0]
  rw [jsSplit_append atSep _ atSep_ne_nil _ h1]

theorem errorLineOf_renderStack (f0 f1 f2 : Str) (h0 : frameOk f0 = true)
    (h1 : frameOk f1 = true) :
    errorLineOf (renderStack [f0, f1, f2]) = some (f1 ++ pad) := by
  unfold errorLineOf
  rw [jsSplit_renderStack f0 f1 f2 h0 h1]
  rfl

/-- Claim C1: for every context handle, useSafeContext raises
ContextMissingError exactly when the underlying read yields the sentinel
absent value (undefined); when it raises, the message is the template
consumerHookName ++ " must be used within " ++ expectedProviderName built
from the captured stack line, and when the read yields a value no error
is raised.  Stated for any stack string whose "at "-split has an index 2,
the shape every stack of the documented three-frame convention has. -/
theorem useSafeContext_throws_iff_absent {α : Type} (st errorLine : Str)
    (contextVal : Option α) (h : errorLineOf st = some errorLine) :
    ((∃ msg, useSafeContextCore (some st) contextVal =
        Except.error (JsError.contextMissing msg)) ↔ contextVal = none)
    ∧ (contextVal = none →
        useSafeContextCore (some st) contextVal =
          Except.error (JsError.contextMissing
            (hookName errorLine ++ " must be used within ".data ++
              contextProviderName errorLine)))
    ∧ (∀ v, contextVal = some v →
        useSafeContextCore (some st) contextVal = Except.ok v) := by
  cases contextVal with
  | none =>
    refine ⟨?_, ?_, ?_⟩
    · constructor
      · intro _; rfl
      · intro _
        exact ⟨contextErrorMessage errorLine, by simp [useSafeContextCore, h]⟩
    · intro _
      simp [useSafeContextCore, h, contextErrorMessage]
    · intro v hv
      cases hv
  | some v =>
    refine ⟨?_, ?_, ?_⟩
    · constructor
      · rintro ⟨msg, hmsg⟩
        simp [useSafeContextCore] at hmsg
      · intro hv; cases hv
    · intro hv; cases hv
    · intro w hw
      injection hw with hvw
      subst hvw
      rfl

/-- Claim C2: whenever the underlying read yields a value v that is not
the sentinel, useSafeContext returns exactly v, unchanged, for every
stack state; the wrapper adds no transformation and keeps no state. -/
theorem useSafeContext_returns_value_unchanged {α : Type} (stack : Option Str) (v : α) :
    useSafeContextCore stack (some v) = Except.ok v := rfl

/-- Claim C4: for a failing call whose snapshot has the documented
three-frame shape (frame 0 the reader, frame 1 the wrapping consumer
hook, frame 2 the calling component), the consumer hook name used in the
message is the token of frame 1 before its first space. -/
theorem hookName_eq_frame1_token (f0 p q f2 : Str) (h0 : frameOk f0 = true)
    (h1 : frameOk (p ++ ' ' :: q) = true) (hp : ' ' ∉ p) :
    (errorLineOf (renderStack [f0, p ++ ' ' :: q, f2])).map hookName = some p := by
  rw [errorLineOf_renderStack f0 (p ++ ' ' :: q) f2 h0 h1]
  simp only [Option.map_some']
  congr 1
  unfold hookName
  have hsp : " ".data = [' '] := rfl
  have hre : (p ++ ' ' :: q) ++ pad = p ++ ([' '] ++ (q ++ pad)) := by simp
  rw [hre, hsp, jsSplit_append [' '] (q ++ pad) (by simp) p (noEarly_single ' ' p hp)]
  rfl

/-- Claim C3, amended: for a failing call with the documented three-frame
shape, expectedProviderName is derived from frame 1 (the own frame of
the consumer hook, the same "at "-segment as the hook name), not from frame 2:
split that segment on path separators, take the last segment, strip
everything from the first dot.  Here frame 1 is r, then a path separator, then t, then a dot, then w
with no later path separator and no earlier dot in the last segment, and
the derived provider name is exactly t. -/
theorem contextProviderName_eq_frame1_basename (f0 r t w f2 : Str)
    (h0 : frameOk f0 = true)
    (h1 : frameOk (r ++ '/' :: (t ++ '.' :: w)) = true)
    (hrt : '/' ∉ t ++ '.' :: w) (ht : '.' ∉ t) :
    (errorLineOf (renderStack [f0, r ++ '/' :: (t ++ '.' :: w), f2])).map contextProviderName
      = some t := by
  rw [errorLineOf_renderStack f0 (r ++ '/' :: (t ++ '.' :: w)) f2 h0 h1]
  simp only [Option.map_some']
  congr 1
  unfold contextProviderName
  have hslash : "/".data = ['/'] := rfl
  have hdot : ".".data = ['.'] := rfl
  have hre : (r ++ '/' :: (t ++ '.' :: w)) ++ pad = r ++ '/' :: ((t ++ '.' :: w) ++ pad) := by
    simp
  have hmem : '/' ∉ (t ++ '.' :: w) ++ pad := by
    intro hin
    rcases List.mem_append.mp hin with hin | hin
    · exact hrt hin
    · exact absurd hin (by decide)
  obtain ⟨l, hl, hlne⟩ := jsSplit_last_seg '/' ((t ++ '.' :: w) ++ pad) hmem r
  rw [hslash, hre, hl, getLastD_append_single]
  have hre2 : (t ++ '.' :: w) ++ pad = t ++ (['.'] ++ (w ++ pad)) := by simp
  rw [hdot, hre2, jsSplit_append ['.'] (w ++ pad) (by simp) t (noEarly_single '.' t ht)]
  rfl

/-- Claim C6: on a failing call both names are extracted from one and the
same stack segment, the element at index 2 of splitting the whole stack
string on the substring "at " (a substring split).  For a rendered
three-frame snapshot that element is frame 1 plus its line padding (the own frame of the
consumer hook; frame 2 only appears from index 3 on), so the
provider name comes from the file path in the own frame of the consumer hook,
not from a later frame. -/
theorem both_names_from_split_index_two {α : Type} (f0 f1 f2 : Str)
    (h0 : frameOk f0 = true) (h1 : frameOk f1 = true) :
    jsSplit atSep (renderStack [f0, f1, f2]) =
        ("Error".data ++ pad) :: (f0 ++ pad) :: (f1 ++ pad) :: jsSplit atSep f2
    ∧ errorLineOf (renderStack [f0, f1, f2]) = some (f1 ++ pad)
    ∧ useSafeContextCore (some (renderStack [f0, f1, f2])) (none : Option α) =
        Except.error (JsError.contextMissing
          (hookName (f1 ++ pad) ++ " must be used within ".data ++
            contextProviderName (f1 ++ pad))) := by
  refine ⟨jsSplit_renderStack f0 f1 f2 h0 h1, errorLineOf_renderStack f0 f1 f2 h0 h1, ?_⟩
  simp [useSafeContextCore, errorLineOf_renderStack f0 f1 f2 h0 h1, contextErrorMessage]

set_option maxRecDepth 8192 in
/-- Claim C3, counterexample: on a failing call with realistic frames
whose frame 1 is defined in ContextProvider.tsx and whose frame 2 lives
in ConsumerComponent.tsx, the code derives the provider name
ContextProvider from frame 1, while the recipe of the claim applied to
frame 2 yields ConsumerComponent; the two disagree, so the provider name
is not computed from frame 2. -/
theorem providerName_not_from_frame2_cex :
    (errorLineOf (renderStack ["useSafeContext (src/index.ts:5:15)".data,
        "useCounter (src/ContextProvider.tsx:8:33)".data,
        "ConsumerComponent (src/ConsumerComponent.tsx:4:21)".data])).map contextProviderName
      = some "ContextProvider".data
    ∧ specProviderNameFromFrame "ConsumerComponent (src/ConsumerComponent.tsx:4:21)".data
      = "ConsumerComponent".data
    ∧ "ContextProvider".data ≠ "ConsumerComponent".data := by
  refine ⟨by decide, by decide, by decide⟩

set_option maxRecDepth 8192 in
/-- Claim C5, counterexample: on the synthetic snapshot of the claim,
whose frame descriptors contain no path separator, the failing branch
produces the message "useCounter must be used within useCounter
(ContextProvider", not the claimed "useCounter must be used within
ContextProvider": with no slash in the segment, the whole segment is its
own last path segment invalidating the expected name. -/
theorem synthetic_snapshot_message_cex :
    useSafeContextCore (some (renderStack ["readSafe".data,
        "useCounter (ContextProvider.tsx:8:33)".data,
        "ConsumerComponent (ConsumerComponent.tsx:4:21)".data])) (none : Option Unit)
      = Except.error (JsError.contextMissing
          "useCounter must be used within useCounter (ContextProvider".data)
    ∧ "useCounter must be used within useCounter (ContextProvider".data
      ≠ "useCounter must be used within ContextProvider".data := by
  refine ⟨by decide, by decide⟩

set_option maxRecDepth 8192 in
/-- Claim C5, amended: on the synthetic snapshot whose frame 1 location
carries a path separator, src/ContextProvider.tsx:8:33, the failing
branch produces exactly the message "useCounter must be used within
ContextProvider". -/
theorem synthetic_snapshot_message_amended :
    useSafeContextCore (some (renderStack ["readSafe".data,
        "useCounter (src/ContextProvider.tsx:8:33)".data,
        "ConsumerComponent (ConsumerComponent.tsx:4:21)".data])) (none : Option Unit)
      = Except.error (JsError.contextMissing
          "useCounter must be used within ContextProvider".data) := by
  decide

/-- Claim C7, amended: when the captured stack splits into fewer than
three "at "-segments, the [2] indexing yields undefined and the code
dereferences it, so the call fails with the runtime TypeError, not with
a distinct diagnostic-unavailable error. -/
theorem short_stack_raises_typeError {α : Type} (st : Str) (h : errorLineOf st = none) :
    useSafeContextCore (some st) (none : Option α) =
      Except.error (JsError.typeError typeErrorMessage) := by
  simp [useSafeContextCore, h]

/-- Claim C7, counterexample: on a one-frame stack the failing branch
ends in the runtime TypeError (the unrelated low-level error the claim
excludes), and not in the ContextMissingError; no distinct
diagnostic-unavailable error exists in the code. -/
theorem short_stack_typeError_cex :
    isTypeError (useSafeContextCore
        (some "Error\n    at useSafeContext (index.ts:5:15)".data) (none : Option Unit)) = true
    ∧ isContextMissingError (useSafeContextCore
        (some "Error\n    at useSafeContext (index.ts:5:15)".data) (none : Option Unit)) = false := by
  refine ⟨by decide, by decide⟩

/-- Claim C8, amended: when the runtime exposes no stack at all, the
non-null assertion on the stack field is not a guard; the dereference of
the absent stack is reached and the call fails with the runtime
TypeError, not with a distinct, clearly labeled diagnostic. -/
theorem absent_stack_raises_typeError (α : Type) :
    useSafeContextCore none (none : Option α) =
      Except.error (JsError.typeError typeErrorMessage) := rfl

/-- Claim C8, counterexample: with the stack field absent the failing
branch reaches the null dereference and ends in the runtime TypeError,
not in any labelled diagnostic, so the dereference is not guarded. -/
theorem absent_stack_typeError_cex :
    isTypeError (useSafeContextCore none (none : Option Unit)) = true
    ∧ isContextMissingError (useSafeContextCore none (none : Option Unit)) = false :=
  ⟨rfl, rfl⟩

/-- Claim C9: the read primitive is selected once as use ?? useContext
(the suspension-capable primitive when present, else the legacy one), and
the observable outcome of useSafeContext depends only on the value the
chosen primitive yields: two primitives that agree on the provider state
give identical return values and error messages. -/
theorem read_strategy_equivalence {κ α : Type} (use : Option (κ → Option α))
    (useContext p : κ → Option α) (stack : Option Str) (ctx : κ)
    (h : useHook use useContext ctx = p ctx) :
    useSafeContext (useHook use useContext) stack ctx = useSafeContext p stack ctx
    ∧ useHook (some p) useContext = p
    ∧ useHook none useContext = useContext := by
  refine ⟨?_, rfl, rfl⟩
  unfold useSafeContext
  rw [h]

/-- Claim C10: the success path is idempotent; with a fixed provider
state yielding the same value on every read, any number of repeated
calls returns that same value each time, the wrapper keeping no state of
its own. -/
theorem useSafeContext_idempotent_success {κ α : Type} (readPrim : κ → Option α)
    (stack : Option Str) (ctx : κ) (v : α) (h : readPrim ctx = some v) (n : Nat) :
    (List.replicate n ctx).map (useSafeContext readPrim stack) =
      List.replicate n (Except.ok v) := by
  rw [List.map_replicate]
  simp [useSafeContext, useSafeContextCore, h]

set_option maxRecDepth 8192 in
/-- Witness for claim C1 at a concrete three-frame stack and an absent
context value. -/
theorem useSafeContext_throws_iff_absent_witness :
    errorLineOf "Error\n    at useSafeContext (src/index.ts:5:15)\n    at useCounter (src/ContextProvider.tsx:8:33)\n    at ConsumerComponent (src/ConsumerComponent.tsx:4:21)".data
      = some "useCounter (src/ContextProvider.tsx:8:33)\n    ".data
    ∧ (((∃ msg, useSafeContextCore
          (some "Error\n    at useSafeContext (src/index.ts:5:15)\n    at useCounter (src/ContextProvider.tsx:8:33)\n    at ConsumerComponent (src/ConsumerComponent.tsx:4:21)".data)
          (none : Option Nat) = Except.error (JsError.contextMissing msg)) ↔
            (none : Option Nat) = none)
      ∧ ((none : Option Nat) = none →
          useSafeContextCore
            (some "Error\n    at useSafeContext (src/index.ts:5:15)\n    at useCounter (src/ContextProvider.tsx:8:33)\n    at ConsumerComponent (src/ConsumerComponent.tsx:4:21)".data)
            (none : Option Nat) =
            Except.error (JsError.contextMissing
              (hookName "useCounter (src/ContextProvider.tsx:8:33)\n    ".data ++
                " must be used within ".data ++
                contextProviderName "useCounter (src/ContextProvider.tsx:8:33)\n    ".data)))
      ∧ (∀ v, (none : Option Nat) = some v →
          useSafeContextCore
            (some "Error\n    at useSafeContext (src/index.ts:5:15)\n    at useCounter (src/ContextProvider.tsx:8:33)\n    at ConsumerComponent (src/ConsumerComponent.tsx:4:21)".data)
            (none : Option Nat) = Except.ok v)) :=
  ⟨by decide, useSafeContext_throws_iff_absent _ _ none (by decide)⟩

set_option maxRecDepth 8192 in
/-- Witness for claim C4 at concrete frames: the hook name is the token
of frame 1 before its first space. -/
theorem hookName_eq_frame1_token_witness :
    frameOk "useSafeContext (src/index.ts:5:15)".data = true
    ∧ frameOk ("useCounter".data ++ ' ' :: "(src/ContextProvider.tsx:8:33)".data) = true
    ∧ ' ' ∉ "useCounter".data
    ∧ (errorLineOf (renderStack ["useSafeContext (src/index.ts:5:15)".data,
        "useCounter".data ++ ' ' :: "(src/ContextProvider.tsx:8:33)".data,
        "ConsumerComponent (src/ConsumerComponent.tsx:4:21)".data])).map hookName
        = some "useCounter".data :=
  ⟨by decide, by decide, by decide,
    hookName_eq_frame1_token _ _ _ _ (by decide) (by decide) (by decide)⟩

set_option maxRecDepth 8192 in
/-- Witness for the amended claim C3 at concrete frames: the provider
name is the last path segment of frame 1, stripped at its first dot. -/
theorem contextProviderName_eq_frame1_basename_witness :
    frameOk "useSafeContext (src/index.ts:5:15)".data = true
    ∧ frameOk ("useCounter (src".data ++ '/' ::
        ("ContextProvider".data ++ '.' :: "tsx:8:33)".data)) = true
    ∧ '/' ∉ "ContextProvider".data ++ '.' :: "tsx:8:33)".data
    ∧ '.' ∉ "ContextProvider".data
    ∧ (errorLineOf (renderStack ["useSafeContext (src/index.ts:5:15)".data,
        "useCounter (src".data ++ '/' :: ("ContextProvider".data ++ '.' :: "tsx:8:33)".data),
        "ConsumerComponent (src/ConsumerComponent.tsx:4:21)".data])).map contextProviderName
        = some "ContextProvider".data :=
  ⟨by decide, by decide, by decide, by decide,
    contextProviderName_eq_frame1_basename _ _ _ _ _
      (by decide) (by decide) (by decide) (by decide)⟩

set_option maxRecDepth 8192 in
/-- Witness for claim C6 at concrete frames: both names come from the
index 2 segment of the split on "at ", the own frame of the consumer
hook. -/
theorem both_names_from_split_index_two_witness :
    frameOk "useSafeContext (src/index.ts:5:15)".data = true
    ∧ frameOk "useCounter (src/ContextProvider.tsx:8:33)".data = true
    ∧ (jsSplit atSep (renderStack ["useSafeContext (src/index.ts:5:15)".data,
          "useCounter (src/ContextProvider.tsx:8:33)".data,
          "ConsumerComponent (src/ConsumerComponent.tsx:4:21)".data]) =
        ("Error".data ++ pad) :: ("useSafeContext (src/index.ts:5:15)".data ++ pad) ::
          ("useCounter (src/ContextProvider.tsx:8:33)".data ++ pad) ::
          jsSplit atSep "ConsumerComponent (src/ConsumerComponent.tsx:4:21)".data
      ∧ errorLineOf (renderStack ["useSafeContext (src/index.ts:5:15)".data,
          "useCounter (src/ContextProvider.tsx:8:33)".data,
          "ConsumerComponent (src/ConsumerComponent.tsx:4:21)".data]) =
          some ("useCounter (src/ContextProvider.tsx:8:33)".data ++ pad)
      ∧ useSafeContextCore (some (renderStack ["useSafeContext (src/index.ts:5:15)".data,
          "useCounter (src/ContextProvider.tsx:8:33)".data,
          "ConsumerComponent (src/ConsumerComponent.tsx:4:21)".data])) (none : Option Nat) =
          Except.error (JsError.contextMissing
            (hookName ("useCounter (src/ContextProvider.tsx:8:33)".data ++ pad) ++
              " must be used within ".data ++
              contextProviderName ("useCounter (src/ContextProvider.tsx:8:33)".data ++ pad)))) :=
  ⟨by decide, by decide, both_names_from_split_index_two _ _ _ (by decide) (by decide)⟩

/-- Witness for the amended claim C7 at a concrete one-segment stack. -/
theorem short_stack_raises_typeError_witness :
    errorLineOf "Error".data = none
    ∧ useSafeContextCore (some "Error".data) (none : Option Nat) =
        Except.error (JsError.typeError typeErrorMessage) :=
  ⟨by decide, short_stack_raises_typeError "Error".data (by decide)⟩

/-- Witness for claim C9 at a concrete pair of read primitives that
agree on the provider state. -/
theorem read_strategy_equivalence_witness :
    useHook (some fun _ : Unit => some (3 : Nat)) (fun _ => none) () =
      (fun _ : Unit => some (3 : Nat)) ()
    ∧ (useSafeContext (useHook (some fun _ : Unit => some (3 : Nat)) (fun _ => none)) none ()
          = useSafeContext (fun _ : Unit => some (3 : Nat)) none ()
      ∧ useHook (some fun _ : Unit => some (3 : Nat)) (fun _ => none) =
          (fun _ : Unit => some (3 : Nat))
      ∧ useHook none (fun _ : Unit => (none : Option Nat)) =
          (fun _ : Unit => (none : Option Nat))) :=
  ⟨rfl, read_strategy_equivalence (some fun _ : Unit => some (3 : Nat)) (fun _ => none)
    (fun _ : Unit => some (3 : Nat)) none () rfl⟩

/-- Witness for claim C10 at a concrete provider state repeated twice. -/
theorem useSafeContext_idempotent_success_witness :
    (fun _ : Unit => some (7 : Nat)) () = some 7
    ∧ (List.replicate 2 ()).map (useSafeContext (fun _ : Unit => some (7 : Nat)) none) =
        List.replicate 2 (Except.ok 7) :=
  ⟨rfl, useSafeContext_idempotent_success (fun _ : Unit => some (7 : Nat)) none () 7 rfl 2⟩
